import Mathlib

/-!
Shallow embedding of `crates/shadowsocks-service/src/local/tun/tcp.rs`:
the TCP bridging layer between a virtual (smoltcp) network interface and
async connection tasks.

The embedded virtual stack (smoltcp 0.8) is an external dependency that the
code consumes as a capability; its socket-level operations (`is_open`,
`can_recv`, `can_send`, `recv_slice`, `send_slice`, `close`, `listen`,
waker registration) are modelled here following that crate's documented
semantics, exactly as far as the bridging code observes them.

Stateful operations of `tcp.rs` are embedded as explicit state-passing
functions that additionally emit an event trace (lock acquisition/release,
data copies, waker registration, notification), so that ordering claims
about the code (for example when the driver-loop notification fires
relative to the interface lock) can be stated and settled.
-/

namespace Tun

/-- TCP socket states, as in `smoltcp::socket::TcpState`. -/
inductive TcpState
  | Closed
  | Listen
  | SynSent
  | SynReceived
  | Established
  | FinWait1
  | FinWait2
  | CloseWait
  | Closing
  | LastAck
  | TimeWait
deriving DecidableEq, Repr

/-- IP addresses: IPv4 as four octets, IPv6 as eight 16-bit segments. -/
inductive IpAddr
  | v4 (a b c d : Nat)
  | v6 (s0 s1 s2 s3 s4 s5 s6 s7 : Nat)
deriving DecidableEq, Repr

/-- A socket address: IP address plus port, as `std::net::SocketAddr`. -/
structure SocketAddr where
  ip : IpAddr
  port : Nat
deriving DecidableEq, Repr

/-- Errors of the virtual stack surfaced by its socket operations
(`smoltcp::Error` variants that the bridging code can encounter). -/
inductive SmolError
  | illegal
  | unaddressable
deriving DecidableEq, Repr

/-- The `std::io::ErrorKind` values produced by the bridging code. -/
inductive IoErrorKind
  | brokenPipe
  | other
deriving DecidableEq, Repr

/-- Result of one poll-based asynchronous operation, as `std::task::Poll`. -/
inductive Poll (α : Type)
  | ready (a : α)
  | pending
deriving DecidableEq, Repr

/-- The view of one virtual TCP socket that the bridging code observes:
protocol state, endpoints, receive/transmit buffers with their capacities,
the ack-delay setting, and one registered waker slot per direction
(bytes are modelled as `Nat`, wakers as `Nat` identifiers). -/
structure TcpSocket where
  state : TcpState
  localEndpoint : Option SocketAddr
  remoteEndpoint : Option SocketAddr
  rxBuf : List Nat
  txBuf : List Nat
  rxCapacity : Nat
  txCapacity : Nat
  ackDelay : Option Nat
  recvWaker : Option Nat
  sendWaker : Option Nat
deriving DecidableEq, Repr

/-- Capability `TcpSocket::is_open` of the virtual stack: every state other
than `Closed` and `TimeWait` counts as open. -/
def TcpSocket.is_open (s : TcpSocket) : Bool :=
  match s.state with
  | .Closed => false
  | .TimeWait => false
  | _ => true

/-- Capability `TcpSocket::may_recv` of the virtual stack: receiving is
possible in the synchronized states, or while buffered data remains. -/
def TcpSocket.may_recv (s : TcpSocket) : Bool :=
  match s.state with
  | .Established => true
  | .FinWait1 => true
  | .FinWait2 => true
  | _ => !s.rxBuf.isEmpty

/-- Capability `TcpSocket::can_recv`: receiving is possible and the receive
buffer is non-empty. -/
def TcpSocket.can_recv (s : TcpSocket) : Bool :=
  s.may_recv && !s.rxBuf.isEmpty

/-- Capability `TcpSocket::may_send` of the virtual stack. -/
def TcpSocket.may_send (s : TcpSocket) : Bool :=
  match s.state with
  | .Established => true
  | .CloseWait => true
  | _ => false

/-- Capability `TcpSocket::can_send`: sending is possible and the transmit
buffer has free space. -/
def TcpSocket.can_send (s : TcpSocket) : Bool :=
  s.may_send && decide (s.txBuf.length < s.txCapacity)

/-- Capability `TcpSocket::close` of the virtual stack: close the
transmission half, per the TCP state machine. -/
def TcpSocket.close (s : TcpSocket) : TcpSocket :=
  match s.state with
  | .Listen => { s with state := .Closed }
  | .SynSent => { s with state := .Closed }
  | .SynReceived => { s with state := .FinWait1 }
  | .Established => { s with state := .FinWait1 }
  | .CloseWait => { s with state := .LastAck }
  | _ => s

/-- Capability `TcpSocket::recv_slice` of the virtual stack: dequeue up to
`len` buffered bytes; illegal unless receiving is possible. -/
def TcpSocket.recv_slice (s : TcpSocket) (len : Nat) :
    Except SmolError (Nat × TcpSocket) :=
  if !s.may_recv then .error .illegal
  else
    let n := min len s.rxBuf.length
    .ok (n, { s with rxBuf := s.rxBuf.drop n })

/-- Capability `TcpSocket::send_slice` of the virtual stack: enqueue as many
bytes of `data` as fit in free transmit space; illegal unless sending is
possible. -/
def TcpSocket.send_slice (s : TcpSocket) (data : List Nat) :
    Except SmolError (Nat × TcpSocket) :=
  if !s.may_send then .error .illegal
  else
    let n := min data.length (s.txCapacity - s.txBuf.length)
    .ok (n, { s with txBuf := s.txBuf ++ data.take n })

/-- Capability `TcpSocket::register_recv_waker`. -/
def TcpSocket.register_recv_waker (s : TcpSocket) (w : Nat) : TcpSocket :=
  { s with recvWaker := some w }

/-- Capability `TcpSocket::register_send_waker`. -/
def TcpSocket.register_send_waker (s : TcpSocket) (w : Nat) : TcpSocket :=
  { s with sendWaker := some w }

/-- Capability `TcpSocket::listen` of the virtual stack: fails with
`Unaddressable` on a zero port and with `Illegal` on an already-open
socket; otherwise resets the socket into the `Listen` state bound to the
given local endpoint. -/
def TcpSocket.listen (s : TcpSocket) (endpoint : SocketAddr) :
    Except SmolError TcpSocket :=
  if endpoint.port = 0 then .error .unaddressable
  else if s.is_open then .error .illegal
  else .ok { s with
    state := .Listen
    localEndpoint := some endpoint
    remoteEndpoint := none
    rxBuf := []
    txBuf := [] }

/-- Capability `TcpSocket::new` with the given buffer capacities; a fresh
socket is closed and carries the stack's default ack delay. -/
def TcpSocket.new (rxCap txCap : Nat) : TcpSocket :=
  { state := .Closed
    localEndpoint := none
    remoteEndpoint := none
    rxBuf := []
    txBuf := []
    rxCapacity := rxCap
    txCapacity := txCap
    ackDelay := some 10
    recvWaker := none
    sendWaker := none }

/-- Capability `TcpSocket::set_ack_delay`. -/
def TcpSocket.set_ack_delay (s : TcpSocket) (d : Option Nat) : TcpSocket :=
  { s with ackDelay := d }

/-- Observable events of the bridging code, in program order: interface
lock acquisition and release, data copies between socket buffers and the
caller, waker registration, the half-close call, the driver-loop
notification (`manager.notify()`), socket table mutation, and task
spawning. -/
inductive Event
  | lockAcquire
  | lockRelease
  | copyToReadBuf (n : Nat)
  | copyFromWriteBuf (n : Nat)
  | registerRecvWaker
  | registerSendWaker
  | socketClose
  | notifyWaiters
  | addSocket (h : Nat)
  | removeSocket (h : Nat)
  | spawnTunnelTask
deriving DecidableEq, Repr

/-- Index of the first occurrence of an event in a trace (trace length when
absent). -/
def firstIdx (e : Event) : List Event → Nat
  | [] => 0
  | x :: xs => if x = e then 0 else firstIdx e xs + 1

/-- The virtual interface owner's socket table: handles mapped to sockets,
plus the next fresh handle (`smoltcp::iface::Interface` as observed through
`add_socket` / `remove_socket` / `get_socket`). -/
structure Interface where
  sockets : List (Nat × TcpSocket)
  nextHandle : Nat
deriving DecidableEq, Repr

/-- Capability `Interface::add_socket`: register a socket, returning its
fresh handle. -/
def Interface.add_socket (iface : Interface) (s : TcpSocket) :
    Nat × Interface :=
  (iface.nextHandle,
   { sockets := iface.sockets ++ [(iface.nextHandle, s)]
     nextHandle := iface.nextHandle + 1 })

/-- Capability `Interface::remove_socket`: delete the handle's entry from
the socket table. -/
def Interface.remove_socket (iface : Interface) (h : Nat) : Interface :=
  { iface with sockets := iface.sockets.filter (fun p => p.1 != h) }

/-- Capability `Interface::get_socket`: look a handle up in the table. -/
def Interface.get_socket (iface : Interface) (h : Nat) : Option TcpSocket :=
  (iface.sockets.find? (fun p => p.1 == h)).map Prod.snd

/-- Write an updated socket back under its handle (mutable access through
`get_socket` in the Rust code). -/
def Interface.set_socket (iface : Interface) (h : Nat) (s : TcpSocket) :
    Interface :=
  { iface with
    sockets := iface.sockets.map (fun p => if p.1 == h then (p.1, s) else p) }

/-- True when the table holds an open socket for the 4-tuple
`(src, dst)` — i.e. a live connection whose local endpoint is `dst` and
whose remote endpoint is `src`. -/
def Interface.hasOpenSocketFor (iface : Interface) (src dst : SocketAddr) :
    Bool :=
  iface.sockets.any fun p =>
    p.2.is_open && decide (p.2.localEndpoint = some dst)
      && decide (p.2.remoteEndpoint = some src)

/-- `TcpConnection`: a connection handle holding its socket handle (the
shared manager reference is passed explicitly to each operation). -/
structure TcpConnection where
  socket_handle : Nat
deriving DecidableEq, Repr

/-- Embedding of `TcpConnection::new`: lock the manager, add the socket to
the interface, keep the returned handle. -/
def TcpConnection.new (socket : TcpSocket) (iface : Interface) :
    TcpConnection × Interface × List Event :=
  let (h, iface1) := iface.add_socket socket
  (⟨h⟩, iface1, [.lockAcquire, .addSocket h, .lockRelease])

/-- Embedding of `impl Drop for TcpConnection`: lock the manager and remove
the connection's socket handle from the interface. -/
def TcpConnection.drop (c : TcpConnection) (iface : Interface) :
    Interface × List Event :=
  (iface.remove_socket c.socket_handle,
   [.lockAcquire, .removeSocket c.socket_handle, .lockRelease])

/-- Decidable equality of `Except` results. -/
instance {ε α : Type} [DecidableEq ε] [DecidableEq α] :
    DecidableEq (Except ε α) := fun a b =>
  match a, b with
  | .ok x, .ok y =>
    if h : x = y then .isTrue (by rw [h])
    else .isFalse (fun he => h (Except.ok.inj he))
  | .error x, .error y =>
    if h : x = y then .isTrue (by rw [h])
    else .isFalse (fun he => h (Except.error.inj he))
  | .ok _, .error _ => .isFalse (fun he => Except.noConfusion he)
  | .error _, .ok _ => .isFalse (fun he => Except.noConfusion he)

/-- Outcome of one `poll_read` call: the poll result (bytes advanced on
success), the socket afterwards, and the event trace. -/
structure ReadOut where
  result : Poll (Except IoErrorKind Nat)
  socket : TcpSocket
  events : List Event
deriving DecidableEq, Repr

/-- Embedding of `TcpConnection::poll_read` (AsyncRead): lock the manager;
a socket that is not open completes with zero bytes; receivable data is
copied into the remaining buffer space and the driver notified before the
guard is dropped; otherwise the receive waker is registered and the call
is pending. `bufSpace` is the unfilled length of the caller's `ReadBuf`,
`waker` the calling task's waker. -/
def poll_read (s : TcpSocket) (bufSpace : Nat) (waker : Nat) : ReadOut :=
  if !s.is_open then
    { result := .ready (.ok 0), socket := s
      events := [.lockAcquire, .lockRelease] }
  else if s.can_recv then
    match s.recv_slice bufSpace with
    | .error _ =>
      { result := .ready (.error .other), socket := s
        events := [.lockAcquire, .lockRelease] }
    | .ok (n, s1) =>
      { result := .ready (.ok n), socket := s1
        events := [.lockAcquire, .copyToReadBuf n, .notifyWaiters,
                   .lockRelease] }
  else
    { result := .pending, socket := s.register_recv_waker waker
      events := [.lockAcquire, .registerRecvWaker, .lockRelease] }

/-- Outcome of one `poll_write` call. -/
structure WriteOut where
  result : Poll (Except IoErrorKind Nat)
  socket : TcpSocket
  events : List Event
deriving DecidableEq, Repr

/-- Embedding of `TcpConnection::poll_write` (AsyncWrite): lock the
manager; a socket that is not open fails with broken pipe; available send
space accepts bytes and the driver is notified before the guard is
dropped; otherwise the send waker is registered and the call is pending. -/
def poll_write (s : TcpSocket) (data : List Nat) (waker : Nat) : WriteOut :=
  if !s.is_open then
    { result := .ready (.error .brokenPipe), socket := s
      events := [.lockAcquire, .lockRelease] }
  else if s.can_send then
    match s.send_slice data with
    | .error _ =>
      { result := .ready (.error .other), socket := s
        events := [.lockAcquire, .lockRelease] }
    | .ok (n, s1) =>
      { result := .ready (.ok n), socket := s1
        events := [.lockAcquire, .copyFromWriteBuf n, .notifyWaiters,
                   .lockRelease] }
  else
    { result := .pending, socket := s.register_send_waker waker
      events := [.lockAcquire, .registerSendWaker, .lockRelease] }

/-- Outcome of one `poll_shutdown` call. -/
structure ShutdownOut where
  result : Poll (Except IoErrorKind Unit)
  socket : TcpSocket
  events : List Event
deriving DecidableEq, Repr

/-- Embedding of `TcpConnection::poll_shutdown`: lock the manager; close
the transmission half if the socket is open; if the socket has not reached
`Closed`, register the send waker and stay pending; otherwise notify the
driver and complete. -/
def poll_shutdown (s : TcpSocket) (waker : Nat) : ShutdownOut :=
  let s1 := if s.is_open then s.close else s
  let closeEvents := if s.is_open then [Event.socketClose] else []
  if s1.state ≠ TcpState.Closed then
    { result := .pending, socket := s1.register_send_waker waker
      events := [Event.lockAcquire] ++ closeEvents
        ++ [Event.registerSendWaker, Event.lockRelease] }
  else
    { result := .ready (.ok ()), socket := s1
      events := [Event.lockAcquire] ++ closeEvents
        ++ [Event.notifyWaiters, Event.lockRelease] }

/-- Embedding of `TcpConnection::poll_flush`: always completes at once. -/
def poll_flush : Poll (Except IoErrorKind Unit) :=
  .ready (.ok ())

/-- The SYN and ACK flags of an incoming TCP segment, as read off the
`TcpPacket` header view by `handle_packet`. -/
structure TcpFlags where
  syn : Bool
  ack : Bool
deriving DecidableEq, Repr

/-- The accept options consulted by `handle_packet`
(`accept_opts.tcp.send_buffer_size` / `recv_buffer_size`). -/
structure AcceptOpts where
  sendBufferSize : Option Nat
  recvBufferSize : Option Nat
deriving DecidableEq, Repr

/-- The socket `handle_packet` constructs for a handshake-initiating
segment: buffers sized from the accept options with the Linux-derived
defaults (send 16384, recv 87380), ack delay disabled. -/
def new_conn_socket (opts : AcceptOpts) : TcpSocket :=
  let send_buffer_size := opts.sendBufferSize.getD 16384
  let recv_buffer_size := opts.recvBufferSize.getD 87380
  (TcpSocket.new recv_buffer_size send_buffer_size).set_ack_delay none

/-- Outcome of one `TcpTun::handle_packet` call: the I/O result, the
interface afterwards, the connection handles created, the tunnel tasks
spawned (with their source/destination addresses), and the event trace. -/
structure HandlePacketOut where
  result : Except IoErrorKind Unit
  iface : Interface
  connections : List TcpConnection
  tunnelTasks : List (SocketAddr × SocketAddr)
  events : List Event
deriving DecidableEq, Repr

/-- Embedding of `TcpTun::handle_packet`: only a segment with SYN set and
ACK unset is acted on. For such a segment a fresh socket is built and
`listen(dst_addr)` attempted; a listen failure is returned as an error
before anything is registered. On success the socket is added to the
interface (through `TcpConnection::new`) and one tunnel task running
`handle_redir_client` is spawned. -/
def handle_packet (iface : Interface) (opts : AcceptOpts)
    (src_addr dst_addr : SocketAddr) (tcp_packet : TcpFlags) :
    HandlePacketOut :=
  if tcp_packet.syn && !tcp_packet.ack then
    let socket := new_conn_socket opts
    match socket.listen dst_addr with
    | .error _ =>
      { result := .error .other, iface := iface, connections := []
        tunnelTasks := [], events := [] }
    | .ok socket1 =>
      let (connection, iface1, evs) := TcpConnection.new socket1 iface
      { result := .ok (), iface := iface1, connections := [connection]
        tunnelTasks := [(src_addr, dst_addr)]
        events := evs ++ [.spawnTunnelTask] }
  else
    { result := .ok (), iface := iface, connections := []
      tunnelTasks := [], events := [] }

/-- Which of the two awaited events ended the driver loop's wait: the
`time::sleep(next_duration)` arm or the `manager_notify.notified()` arm of
the select. -/
inductive WakeReason
  | timerElapsed
  | notified
deriving DecidableEq, Repr

/-- Observable events of one driver-loop iteration, in program order. -/
inductive LoopEvent
  | lockAcquire
  | ifacePoll
  | lockRelease
  | yieldNow
  | selectWait (ms : Nat)
  | wake (r : WakeReason)
  | nextIteration
deriving DecidableEq, Repr

/-- Embedding of one iteration of the driver loop spawned in
`TcpTun::new`: under the lock, poll the interface and compute
`next_duration = poll_delay(now).unwrap_or(50ms)`; release the lock, yield
once, then wait on the select of `sleep(next_duration)` and the manager
notification; whichever arm fires (`r`), the loop continues with the next
iteration. `pollDelay` is the interface's reported deadline in
milliseconds. -/
def driver_loop_iteration (pollDelay : Option Nat) (r : WakeReason) :
    List LoopEvent :=
  let next_duration :=
    match pollDelay with
    | some d => d
    | none => 50
  [.lockAcquire, .ifacePoll, .lockRelease, .yieldNow,
   .selectWait next_duration, .wake r, .nextIteration]

/-- Modelled from the spec: `crate::local::utils::to_ipv4_mapped` is not
under `src/`; per the spec, an IPv4-mapped IPv6 address such as
`::ffff:93.184.216.34` converts to its plain IPv4 form, and any other
address yields nothing. The mapped form is segments `0,0,0,0,0,0xffff`
followed by the four octets packed into the last two 16-bit segments. -/
def to_ipv4_mapped (ip : IpAddr) : Option IpAddr :=
  match ip with
  | .v4 _ _ _ _ => none
  | .v6 s0 s1 s2 s3 s4 s5 s6 s7 =>
    if s0 = 0 ∧ s1 = 0 ∧ s2 = 0 ∧ s3 = 0 ∧ s4 = 0 ∧ s5 = 65535 then
      some (.v4 (s6 / 256) (s6 % 256) (s7 / 256) (s7 % 256))
    else none

/-- True when the address is a `SocketAddr::V6`. -/
def SocketAddr.isV6 (a : SocketAddr) : Bool :=
  match a.ip with
  | .v6 _ _ _ _ _ _ _ _ => true
  | .v4 _ _ _ _ => false

/-- Observable steps of `handle_redir_client` and
`establish_client_tcp_redir`, in program order. -/
inductive RedirEvent
  | normalizeDestination
  | selectBackendServer
  | connectBackend
  | relayTunnel
deriving DecidableEq, Repr

/-- Outcome of `handle_redir_client` up to the external relay: the target
address handed to backend selection and connection, and the step trace. -/
structure RedirOut where
  targetAddr : SocketAddr
  events : List RedirEvent
deriving DecidableEq, Repr

/-- Embedding of `handle_redir_client`: rewrite an IPv4-mapped IPv6
destination to the plain IPv4 address with the same port, then run
`establish_client_tcp_redir`, which selects the best TCP server from the
balancer, connects to it for the target address, and relays (the backend
pieces are external capabilities; the trace records their order). -/
def handle_redir_client (daddr : SocketAddr) : RedirOut :=
  let daddr1 :=
    if daddr.isV6 then
      match to_ipv4_mapped daddr.ip with
      | some v4 => { ip := v4, port := daddr.port }
      | none => daddr
    else daddr
  { targetAddr := daddr1
    events := [.normalizeDestination, .selectBackendServer, .connectBackend,
               .relayTunnel] }

/-- Index of the first occurrence of a redirect step in a step trace. -/
def firstRedirIdx (e : RedirEvent) : List RedirEvent → Nat
  | [] => 0
  | x :: xs => if x = e then 0 else firstRedirIdx e xs + 1

/-- A concrete client source address used in concrete evaluations. -/
def srcAddr0 : SocketAddr := ⟨.v4 192 168 0 2, 50000⟩

/-- The destination `203.0.113.5:80` of the spec's end-to-end scenario. -/
def dstAddr0 : SocketAddr := ⟨.v4 203 0 113 5, 80⟩

/-- A destination with port `0`, on which `listen` fails. -/
def dstPort0 : SocketAddr := ⟨.v4 203 0 113 5, 0⟩

/-- Accept options with no explicit buffer sizes (defaults apply). -/
def opts0 : AcceptOpts := ⟨none, none⟩

/-- A handshake-initiating segment: SYN set, ACK unset. -/
def synPacket : TcpFlags := ⟨true, false⟩

/-- A concrete established socket for the 4-tuple `(srcAddr0, dstAddr0)`
with empty buffers. -/
def estSocket : TcpSocket :=
  { state := .Established
    localEndpoint := some dstAddr0
    remoteEndpoint := some srcAddr0
    rxBuf := []
    txBuf := []
    rxCapacity := 87380
    txCapacity := 16384
    ackDelay := none
    recvWaker := none
    sendWaker := none }

/-- The established socket with three receivable bytes buffered. -/
def estSocketData : TcpSocket := { estSocket with rxBuf := [1, 2, 3] }

/-- The same socket after reaching the `Closed` state. -/
def closedSocket : TcpSocket := { estSocket with state := .Closed }

/-- An interface whose socket table holds the open established socket for
`(srcAddr0, dstAddr0)` under handle `0`. -/
def iface0 : Interface := ⟨[(0, estSocket)], 1⟩

/-- The spec's IPv4-mapped IPv6 example `::ffff:93.184.216.34:80`
(segments `0,0,0,0,0,ffff,5db8,d822`). -/
def mappedDst : SocketAddr := ⟨.v6 0 0 0 0 0 65535 23992 55330, 80⟩

/-- Claim C3: a `poll_read` on a connection whose socket is no longer open
completes immediately and successfully with zero bytes advanced
(end-of-stream), neither pending nor an error. -/
theorem poll_read_closed_eof (s : TcpSocket) (bufSpace waker : Nat)
    (h : s.is_open = false) :
    (poll_read s bufSpace waker).result = Poll.ready (Except.ok 0) := by
  simp [poll_read, h]

/-- Witness for C3 at the concrete closed socket. -/
theorem poll_read_closed_eof_witness :
    (poll_read closedSocket 16 0).result = Poll.ready (Except.ok 0) :=
  poll_read_closed_eof closedSocket 16 0 (by decide)

/-- Claim C4: a `poll_write` on a connection whose socket is not open fails
immediately with a broken-pipe error; it neither succeeds nor stays
pending. -/
theorem poll_write_closed_broken_pipe (s : TcpSocket) (data : List Nat)
    (waker : Nat) (h : s.is_open = false) :
    (poll_write s data waker).result
      = Poll.ready (Except.error IoErrorKind.brokenPipe) := by
  simp [poll_write, h]

/-- Witness for C4 at the concrete closed socket. -/
theorem poll_write_closed_broken_pipe_witness :
    (poll_write closedSocket [1, 2] 0).result
      = Poll.ready (Except.error IoErrorKind.brokenPipe) :=
  poll_write_closed_broken_pipe closedSocket [1, 2] 0 (by decide)

/-- Claim C6: a `poll_read` on an open connection with no receivable data
registers the calling task's waker for receive readiness, returns pending,
and does not signal the driver's wake notification. -/
theorem poll_read_open_no_data_pending (s : TcpSocket) (bufSpace waker : Nat)
    (hopen : s.is_open = true) (hrecv : s.can_recv = false) :
    (poll_read s bufSpace waker).result = Poll.pending
    ∧ (poll_read s bufSpace waker).socket.recvWaker = some waker
    ∧ Event.notifyWaiters ∉ (poll_read s bufSpace waker).events := by
  simp [poll_read, hopen, hrecv, TcpSocket.register_recv_waker]

/-- Witness for C6 at the established socket with an empty receive
buffer. -/
theorem poll_read_open_no_data_pending_witness :
    (poll_read estSocket 16 7).result = Poll.pending
    ∧ (poll_read estSocket 16 7).socket.recvWaker = some 7
    ∧ Event.notifyWaiters ∉ (poll_read estSocket 16 7).events :=
  poll_read_open_no_data_pending estSocket 16 7 (by decide) (by decide)

/-- Claim C5: `poll_shutdown` issues a half-close when the socket is still
open; then, if the socket has not reached `Closed`, it registers the send
waker and stays pending; otherwise it signals the driver's wake
notification and completes successfully. -/
theorem poll_shutdown_behavior (s : TcpSocket) (waker : Nat) :
    (s.is_open = true → Event.socketClose ∈ (poll_shutdown s waker).events)
    ∧ ((if s.is_open then s.close else s).state ≠ TcpState.Closed →
        (poll_shutdown s waker).result = Poll.pending
        ∧ (poll_shutdown s waker).socket.sendWaker = some waker)
    ∧ ((if s.is_open then s.close else s).state = TcpState.Closed →
        (poll_shutdown s waker).result = Poll.ready (Except.ok ())
        ∧ Event.notifyWaiters ∈ (poll_shutdown s waker).events) := by
  by_cases ho : s.is_open
  · by_cases hc : (s.close).state = TcpState.Closed
    · simp [poll_shutdown, ho, hc, TcpSocket.register_send_waker]
    · simp [poll_shutdown, ho, hc, TcpSocket.register_send_waker]
  · by_cases hc : s.state = TcpState.Closed
    · simp [poll_shutdown, ho, hc, TcpSocket.register_send_waker]
    · simp [poll_shutdown, ho, hc, TcpSocket.register_send_waker]

/-- Witness for C5 at the open established socket (close reaches
`FinWait1`, so the call is pending with the send waker registered). -/
theorem poll_shutdown_behavior_witness :
    (poll_shutdown estSocket 7).result = Poll.pending
    ∧ (poll_shutdown estSocket 7).socket.sendWaker = some 7 :=
  (poll_shutdown_behavior estSocket 7).2.1 (by decide)

/-- Counterexample to claim C7 as stated: on a successful data-copying
read, the wake notification is NOT signalled after the lock release — in
the trace of `poll_read` on an established socket with three buffered
bytes, the first lock release does not precede the notification. -/
theorem poll_read_notify_not_after_unlock :
    (poll_read estSocketData 16 0).result = Poll.ready (Except.ok 3)
    ∧ ¬ (firstIdx Event.lockRelease (poll_read estSocketData 16 0).events
          < firstIdx Event.notifyWaiters
              (poll_read estSocketData 16 0).events) := by
  decide

/-- Claim C7 (amended): on every `poll_read` that completes successfully
having copied at least one byte, the wake notification is signalled, and
it is signalled while the interface lock is still held — strictly before
the lock release, and strictly after the data copy. -/
theorem poll_read_notify_under_lock (s : TcpSocket) (bufSpace waker n : Nat)
    (h : (poll_read s bufSpace waker).result = Poll.ready (Except.ok n))
    (hn : 0 < n) :
    Event.notifyWaiters ∈ (poll_read s bufSpace waker).events
    ∧ firstIdx (Event.copyToReadBuf n) (poll_read s bufSpace waker).events
        < firstIdx Event.notifyWaiters (poll_read s bufSpace waker).events
    ∧ firstIdx Event.notifyWaiters (poll_read s bufSpace waker).events
        < firstIdx Event.lockRelease (poll_read s bufSpace waker).events := by
  by_cases ho : s.is_open
  · by_cases hr : s.can_recv
    · have hmay : s.may_recv = true := by
        have := hr
        unfold TcpSocket.can_recv at this
        exact (Bool.and_eq_true_iff.mp this).1
      simp [poll_read, ho, hr, TcpSocket.recv_slice, hmay] at h ⊢
      simp [firstIdx, h]
    · simp [poll_read, ho, hr] at h
  · simp [poll_read, ho] at h
    omega

/-- Witness for amended C7 at the established socket with buffered data. -/
theorem poll_read_notify_under_lock_witness :
    Event.notifyWaiters ∈ (poll_read estSocketData 16 0).events
    ∧ firstIdx (Event.copyToReadBuf 3) (poll_read estSocketData 16 0).events
        < firstIdx Event.notifyWaiters (poll_read estSocketData 16 0).events
    ∧ firstIdx Event.notifyWaiters (poll_read estSocketData 16 0).events
        < firstIdx Event.lockRelease (poll_read estSocketData 16 0).events :=
  poll_read_notify_under_lock estSocketData 16 0 3 (by decide) (by decide)

/-- Counterexample to claim C1 as stated: a duplicate SYN (SYN set, ACK
unset) for the 4-tuple `(srcAddr0, dstAddr0)`, delivered while the
interface already holds an open connection for exactly that 4-tuple, DOES
create a second connection handle: `handle_packet` performs no
deduplication, so it registers a second socket (table grows to two
entries) and spawns a second tunnel task. -/
theorem handle_packet_duplicate_syn_second_handle :
    iface0.hasOpenSocketFor srcAddr0 dstAddr0 = true
    ∧ (handle_packet iface0 opts0 srcAddr0 dstAddr0 synPacket).connections.length
        = 1
    ∧ (handle_packet iface0 opts0 srcAddr0 dstAddr0 synPacket).tunnelTasks.length
        = 1
    ∧ (handle_packet iface0 opts0 srcAddr0 dstAddr0 synPacket).iface.sockets.length
        = 2 := by
  decide

/-- Claim C1 (amended): for every segment with SYN set and ACK unset whose
destination port is non-zero (so that `listen` succeeds), `handle_packet`
creates exactly one new connection handle and spawns exactly one tunnel
task, growing the socket table by exactly one entry — including when the
segment is a duplicate SYN for a 4-tuple whose first connection is still
open. -/
theorem handle_packet_syn_one_connection (iface : Interface)
    (opts : AcceptOpts) (src dst : SocketAddr) (p : TcpFlags)
    (hsyn : p.syn = true) (hack : p.ack = false) (hport : dst.port ≠ 0) :
    (handle_packet iface opts src dst p).connections.length = 1
    ∧ (handle_packet iface opts src dst p).tunnelTasks.length = 1
    ∧ (handle_packet iface opts src dst p).iface.sockets.length
        = iface.sockets.length + 1 := by
  simp [handle_packet, hsyn, hack, new_conn_socket, TcpSocket.new,
    TcpSocket.set_ack_delay, TcpSocket.listen, TcpSocket.is_open, hport,
    TcpConnection.new, Interface.add_socket]

/-- Witness for amended C1: a first SYN for `203.0.113.5:80` against an
empty socket table. -/
theorem handle_packet_syn_one_connection_witness :
    (handle_packet (Interface.mk [] 0) opts0 srcAddr0 dstAddr0
        synPacket).connections.length = 1
    ∧ (handle_packet (Interface.mk [] 0) opts0 srcAddr0 dstAddr0
        synPacket).tunnelTasks.length = 1
    ∧ (handle_packet (Interface.mk [] 0) opts0 srcAddr0 dstAddr0
        synPacket).iface.sockets.length
      = (Interface.mk [] 0).sockets.length + 1 :=
  handle_packet_syn_one_connection (Interface.mk [] 0) opts0 srcAddr0
    dstAddr0 synPacket (by decide) (by decide) (by decide)

/-- After filtering out every entry with key `h`, a lookup of `h` finds
nothing. -/
theorem find_filter_ne (l : List (Nat × TcpSocket)) (h : Nat) :
    (l.filter (fun p => p.1 != h)).find? (fun p => p.1 == h) = none := by
  induction l with
  | nil => rfl
  | cons a t ih =>
    by_cases ha : a.1 = h
    · simp [List.filter_cons, ha, ih]
    · simp [List.filter_cons, ha, List.find?_cons, ih]

/-- Claim C2: dropping a `TcpConnection` removes its socket handle from the
interface's socket table (the handle no longer resolves), and the removal
happens between the lock acquisition and the lock release of the drop
handler — synchronous cleanup under the lock on every exit path. -/
theorem drop_removes_socket_under_lock (c : TcpConnection)
    (iface : Interface) :
    (TcpConnection.drop c iface).1.get_socket c.socket_handle = none
    ∧ (TcpConnection.drop c iface).2
        = [Event.lockAcquire, Event.removeSocket c.socket_handle,
           Event.lockRelease]
    ∧ firstIdx Event.lockAcquire (TcpConnection.drop c iface).2
        < firstIdx (Event.removeSocket c.socket_handle)
            (TcpConnection.drop c iface).2
    ∧ firstIdx (Event.removeSocket c.socket_handle)
          (TcpConnection.drop c iface).2
        < firstIdx Event.lockRelease (TcpConnection.drop c iface).2 := by
  refine ⟨?_, rfl, ?_, ?_⟩
  · simp [TcpConnection.drop, Interface.remove_socket, Interface.get_socket,
      find_filter_ne]
  · simp [TcpConnection.drop, firstIdx]
  · simp [TcpConnection.drop, firstIdx]

/-- Claim C10: when the newly constructed socket's `listen(dst_addr)`
fails, `handle_packet` on a SYN-and-not-ACK segment returns an error and
leaves the shared state untouched: the interface is unchanged, no
connection handle is created, and no tunnel task is spawned. -/
theorem handle_packet_listen_failure_unchanged (iface : Interface)
    (opts : AcceptOpts) (src dst : SocketAddr) (p : TcpFlags)
    (err : SmolError) (hsyn : p.syn = true) (hack : p.ack = false)
    (hfail : (new_conn_socket opts).listen dst = .error err) :
    (handle_packet iface opts src dst p).result
      = Except.error IoErrorKind.other
    ∧ (handle_packet iface opts src dst p).iface = iface
    ∧ (handle_packet iface opts src dst p).connections = []
    ∧ (handle_packet iface opts src dst p).tunnelTasks = [] := by
  simp [handle_packet, hsyn, hack, hfail]

/-- Witness for C10: a SYN for destination port `0`, on which `listen`
fails with `Unaddressable`. -/
theorem handle_packet_listen_failure_unchanged_witness :
    (handle_packet iface0 opts0 srcAddr0 dstPort0 synPacket).iface = iface0
    ∧ (handle_packet iface0 opts0 srcAddr0 dstPort0 synPacket).connections
        = []
    ∧ (handle_packet iface0 opts0 srcAddr0 dstPort0 synPacket).tunnelTasks
        = [] := by
  have h := handle_packet_listen_failure_unchanged iface0 opts0 srcAddr0
    dstPort0 synPacket SmolError.unaddressable (by decide) (by decide)
    (by decide)
  exact ⟨h.2.1, h.2.2.1, h.2.2.2⟩

/-- Claim C8: when the interface reports no pending poll deadline, the
driver loop waits with the bounded 50 ms fallback, and whichever select
arm fires first — the sleep elapsing or the wake notification — the
iteration ends by continuing into the next iteration. -/
theorem driver_loop_fallback_50ms (r : WakeReason) :
    LoopEvent.selectWait 50 ∈ driver_loop_iteration none r
    ∧ LoopEvent.wake r ∈ driver_loop_iteration none r
    ∧ (driver_loop_iteration none r).getLast?
        = some LoopEvent.nextIteration := by
  cases r <;> exact ⟨by decide, by decide, by decide⟩

/-- Claim C9: `handle_redir_client` rewrites an IPv4-mapped IPv6
destination to the plain IPv4 address with the same port, passes any other
destination through unchanged, and does so strictly before backend-server
selection. -/
theorem redir_normalizes_ipv4_mapped (daddr : SocketAddr) :
    (∀ v4, to_ipv4_mapped daddr.ip = some v4 →
      (handle_redir_client daddr).targetAddr = ⟨v4, daddr.port⟩)
    ∧ (to_ipv4_mapped daddr.ip = none →
      (handle_redir_client daddr).targetAddr = daddr)
    ∧ firstRedirIdx RedirEvent.normalizeDestination
          (handle_redir_client daddr).events
        < firstRedirIdx RedirEvent.selectBackendServer
            (handle_redir_client daddr).events := by
  refine ⟨?_, ?_, ?_⟩
  · intro v4 h
    rcases daddr with ⟨ip, port⟩
    cases ip with
    | v4 a b c d => simp [to_ipv4_mapped] at h
    | v6 s0 s1 s2 s3 s4 s5 s6 s7 =>
      simp [handle_redir_client, SocketAddr.isV6] at h ⊢
      simp [h]
  · intro h
    rcases daddr with ⟨ip, port⟩
    cases ip with
    | v4 a b c d => simp [handle_redir_client, SocketAddr.isV6]
    | v6 s0 s1 s2 s3 s4 s5 s6 s7 =>
      simp [handle_redir_client, SocketAddr.isV6] at h ⊢
      simp [h]
  · simp [handle_redir_client, firstRedirIdx]

/-- Witness for C9 at the spec's example `::ffff:93.184.216.34:80`, which
normalizes to `93.184.216.34:80`. -/
theorem redir_normalizes_ipv4_mapped_witness :
    (handle_redir_client mappedDst).targetAddr
      = ⟨IpAddr.v4 93 184 216 34, 80⟩ :=
  (redir_normalizes_ipv4_mapped mappedDst).1 (IpAddr.v4 93 184 216 34)
    (by decide)

end Tun
